import Mathlib

/-!
Shallow embedding of the review-and-repair workflow in
`src/Downloads/meesho-sparkle-main/main.py`.

Python floats are modelled as exact rationals (`ℚ`); JSON objects with
optional numeric fields are modelled as structures with `Option ℚ` fields,
where `none` stands for an absent key (so Python's `x.get(k, d)` becomes
`Option.getD`).  External LLM calls are modelled by their parsed responses
(`Option ApprovalData`: `none` when `safe_json` fails or the payload is
falsy), and file paths produced by the editor/generator are abstracted as a
function from the iteration index to the path string.
-/

namespace Meesho

/-! ### Configuration constants (main.py lines 44-51) -/

def RELEVANCE_PASS : ℚ := 0.80
def REALITY_PASS : ℚ := 0.70
def INTEGRITY_PASS : ℚ := 0.95
def QUALITY_SOFT : ℚ := 0.50
def MAX_ITERS : ℕ := 2

def W_REL : ℚ := 0.70
def W_REAL : ℚ := 0.20
def W_QUAL : ℚ := 0.10

/-! ### Scoring policy (spec 4.1; inlined in the code at lines 346 and 349) -/

/-- The weighted suitability score `0.70*relevance + 0.20*reality + 0.10*quality`
computed inline at main.py lines 346, 392, 469 and 487. -/
def score (relevance reality quality : ℚ) : ℚ :=
  W_REL * relevance + W_REAL * reality + W_QUAL * quality

/-- The acceptance gate `relevance >= 0.80 and reality >= 0.70 and integrity >= 0.95`
written inline at main.py lines 349 and 463.  Quality is not consulted. -/
def isAcceptable (relevance reality integrity : ℚ) : Bool :=
  decide (relevance ≥ RELEVANCE_PASS) && decide (reality ≥ REALITY_PASS) &&
    decide (integrity ≥ INTEGRITY_PASS)

/-- Python `round(x, 3)` used when storing final scores (lines 395, 469, 487);
rounding to the nearest thousandth (tie behaviour at exact half-thousandths is
irrelevant to every claim below). -/
def round3 (q : ℚ) : ℚ := (round (1000 * q) : ℤ) / 1000

/-! ### Parsed LLM responses (data model)

The understanding capability returns JSON `{per_image: [...], global: {...}}`
(main.py lines 259-268).  Numeric and string fields read through `.get(k, d)`
are optional. -/

/-- One per-image verdict object of the understanding response.
`image_hash` is accessed as `x["image_hash"]` (required key); the four scores
and the reasons are read with defaults. -/
structure PerImage where
  image_hash : String
  relevance : Option ℚ
  reality : Option ℚ
  integrity : Option ℚ
  quality : Option ℚ
  verdict : String
  reasons : List String
deriving Repr, DecidableEq

/-- The `global` object of the understanding response; `none` models a
missing or JSON-null field. -/
structure GlobalRec where
  decision : Option String
  chosen_image_hash : Option String
  edit_brief : Option String
  gen_brief : Option String
deriving Repr, DecidableEq

/-- A parsed understanding-capability response (initial approval and
single-candidate re-approval use the same schema). -/
structure ApprovalData where
  per_image : List PerImage
  globalRec : GlobalRec
deriving Repr, DecidableEq

/-- Python truthiness of an optional string: `None` and `""` are falsy. -/
def pyTruthy : Option String → Bool
  | none => false
  | some s => !(s == "")

/-- Python `s or d` for an optional string `s`: the default replaces a
missing, null or empty value. -/
def pyOr (s : Option String) (d : String) : String :=
  match s with
  | none => d
  | some t => if t == "" then d else t

/-! ### Approval evaluator (node_approval, main.py lines 324-373) -/

/-- The score the approval loop computes for one per-image object
(line 346): missing scores default to `0`. -/
def recScore (x : PerImage) : ℚ :=
  score (x.relevance.getD 0) (x.reality.getD 0) (x.quality.getD 0)

/-- The acceptance test of the approval loop (line 349): missing relevance
and reality default to `0`, missing integrity defaults to `1`. -/
def initialAcceptableRec (x : PerImage) : Bool :=
  isAcceptable (x.relevance.getD 0) (x.reality.getD 0) (x.integrity.getD 1)

/-- Body of the for-loop of lines 344-350: lines 346-348 update
`(best_score, best_hash)` on a strictly greater score, line 349-350 overwrite
`approved_hash` on every record passing the acceptance gate. -/
def scanStep (acc : (ℚ × Option String) × Option String) (x : PerImage) :
    (ℚ × Option String) × Option String :=
  (if recScore x > acc.1.1 then (recScore x, some x.image_hash) else acc.1,
   if initialAcceptableRec x then some x.image_hash else acc.2)

/-- The accumulating for-loop of lines 344-350: threads
`((best_score, best_hash), approved_hash)` through `per_image`, starting from
`((-1, None), None)`. -/
def approvalScan (per_image : List PerImage) :
    (ℚ × Option String) × Option String :=
  per_image.foldl scanStep ((-1, none), none)

/-- The `approved_hash` component of `scanStep` on its own (used to reason
about `approvalScan`). -/
def approveUpd (a : Option String) (x : PerImage) : Option String :=
  if initialAcceptableRec x then some x.image_hash else a

/-- The fail-open per-image verdict synthesized at lines 334-337 when the
response cannot be parsed. -/
def failOpenRecord (h : String) : PerImage :=
  { image_hash := h, relevance := some 0, reality := some 0,
    integrity := some 1, quality := some 0.5,
    verdict := "NEEDS_COMPLETE_CHANGE", reasons := ["llm_parse_error"] }

/-- The whole fail-open response of lines 331-338, one synthesized verdict per
input image. -/
def failOpenData (hashes : List String) : ApprovalData :=
  { per_image := hashes.map failOpenRecord,
    globalRec := { decision := some "NEEDS_COMPLETE_CHANGE",
                   chosen_image_hash := none, edit_brief := none,
                   gen_brief := some "could not parse" } }

/-- The routing decision produced by `node_approval` (route and chosen
fingerprint; the feedback payload is not consulted by any claim and is not
modelled). -/
structure Decision where
  route : String
  chosen : Option String
deriving Repr, DecidableEq

/-- Route computation of lines 342-368 on parsed (or fail-open) data. -/
def computeDecision (data : ApprovalData) : Decision :=
  let scan := approvalScan data.per_image
  let best_hash := scan.1.2
  let approved_hash := scan.2
  if pyTruthy approved_hash then
    { route := "APPROVED", chosen := approved_hash }
  else
    let route0 := pyOr data.globalRec.decision "NEEDS_COMPLETE_CHANGE"
    let route :=
      if route0 == "NEEDS_EDIT" || route0 == "NEEDS_COMPLETE_CHANGE" then route0
      else if data.per_image.any (fun x => decide (x.relevance.getD 0 ≥ 0.6))
        then "NEEDS_EDIT" else "NEEDS_COMPLETE_CHANGE"
    { route := route, chosen := best_hash }

/-- Output of `node_approval`: the (possibly fail-open) approval data, the
routing decision, and the reset retry counter (line 372). -/
structure ApprovalOutput where
  approvalData : ApprovalData
  decision : Decision
  iter_count : ℕ
deriving Repr, DecidableEq

/-- Node node_approval (lines 324-373): `parsed = none` models `safe_json`
returning `None` (or a falsy payload), in which case the fail-open data is
substituted. -/
def node_approval (inputHashes : List String) (parsed : Option ApprovalData) :
    ApprovalOutput :=
  let data := parsed.getD (failOpenData inputHashes)
  { approvalData := data, decision := computeDecision data, iter_count := 0 }

/-! ### Best selector (node_select_best, main.py lines 387-397) -/

/-- The final chosen result (`state["best"]`). -/
structure Best where
  generated : Bool
  path : Option String
  source_hash : Option String
  final_score : ℚ
  warning : Option String
deriving Repr, DecidableEq

/-- The three per-image scores node_select_best reads back for an input hash
(line 392): a hash absent from the approval map yields the empty dict, hence
all defaults `0`. -/
def lookupScores (approval : String → Option PerImage) (h : String) :
    ℚ × ℚ × ℚ :=
  match approval h with
  | some a => (a.relevance.getD 0, a.reality.getD 0, a.quality.getD 0)
  | none => (0, 0, 0)

/-- Score recomputed by node_select_best for one input image (line 392). -/
def imageScore (approval : String → Option PerImage) (h : String) : ℚ :=
  score (lookupScores approval h).1 (lookupScores approval h).2.1
    (lookupScores approval h).2.2

/-- The strict-improvement maximum fold shared by node_select_best
(lines 389-394) and the best-candidate tracking of node_approval
(lines 344-348): keeps the current element only on a strictly greater
score. -/
def argFold (f : α → ℚ) (l : List α) (acc : ℚ × Option α) : ℚ × Option α :=
  l.foldl (fun a x => if f x > a.1 then (f x, some x) else a) acc

/-- Node node_select_best (lines 387-397): returns the updated `best` and the
terminal route letter.  `none` models the `TypeError` Python would raise when
no input ever beats the initial `-1.0` (e.g. an empty input list). -/
def node_select_best (inputs : List String)
    (approval : String → Option PerImage) : Option (Best × String) :=
  match (argFold (imageScore approval) inputs (-1, none)).2 with
  | none => none
  | some h =>
      some ({ generated := false, path := none, source_hash := some h,
              final_score :=
                round3 (argFold (imageScore approval) inputs (-1, none)).1,
              warning := none }, "A")

/-! ### Re-approval and the repair loop (node_reapproval, main.py lines
448-492, plus the graph loop of lines 595-610)

One loop iteration of either repair chain is
prompter -> editor/generator -> reapproval; the graph routes back to the
same prompter while `best` is unset.  The external parts of one iteration
are the produced candidate file (abstracted as `pathFn it`) and the parsed
re-approval response (`resp it`). -/

/-- The four candidate scores extracted at lines 458-462: all default to `0`
(including integrity), and a missing/unparsable response or an empty
`per_image` list leaves all four at `0`. -/
structure CandScores where
  relevance : ℚ
  reality : ℚ
  integrity : ℚ
  quality : ℚ
deriving Repr, DecidableEq

/-- Score extraction of lines 459-462 from a parsed re-approval response. -/
def extractScores (resp : Option ApprovalData) : CandScores :=
  match resp with
  | none => ⟨0, 0, 0, 0⟩
  | some d =>
      match d.per_image with
      | [] => ⟨0, 0, 0, 0⟩
      | x :: _ =>
          ⟨x.relevance.getD 0, x.reality.getD 0, x.integrity.getD 0,
           x.quality.getD 0⟩

/-- The acceptance test of line 463 on extracted candidate scores. -/
def candApproved (s : CandScores) : Bool :=
  isAcceptable s.relevance s.reality s.integrity

/-- Terminal route letter assignment of lines 471-474 and 488-491: `B` when
the chain was entered with route `NEEDS_EDIT`, else `C`. -/
def terminalRoute (route : String) : String :=
  if route == "NEEDS_EDIT" then "B" else "C"

/-- Aggregate outcome of one repair chain: number of PRODUCE attempts, final
retry counter, final `best`, and final route. -/
structure ChainResult where
  attempts : ℕ
  iter_count : ℕ
  best : Best
  route : String
deriving Repr, DecidableEq

/-- The repair loop from iteration `it` on: one produced candidate
(`pathFn it`) is re-approved against `resp it`; on success `best` is set and
the chain ends (lines 468-475); otherwise it retries while
`it + 1 < maxIters` (lines 478-484) and finally stops with the latest
candidate and a warning (lines 485-492). -/
def runChainFrom (maxIters : ℕ) (route : String)
    (resp : ℕ → Option ApprovalData) (pathFn : ℕ → String) (it : ℕ) :
    ChainResult :=
  let s := extractScores (resp it)
  if candApproved s then
    { attempts := 1, iter_count := it,
      best := { generated := true, path := some (pathFn it),
                source_hash := none,
                final_score := round3 (score s.relevance s.reality s.quality),
                warning := none },
      route := terminalRoute route }
  else if h : it + 1 < maxIters then
    let r := runChainFrom maxIters route resp pathFn (it + 1)
    { r with attempts := r.attempts + 1 }
  else
    { attempts := 1, iter_count := it,
      best := { generated := true, path := some (pathFn it),
                source_hash := none,
                final_score := round3 (score s.relevance s.reality s.quality),
                warning := some "max_iters_reached" },
      route := terminalRoute route }
termination_by maxIters - it
decreasing_by omega

/-- A whole repair chain, entered with `iter_count = 0` (set by
node_approval at line 372). -/
def runChain (maxIters : ℕ) (route : String)
    (resp : ℕ → Option ApprovalData) (pathFn : ℕ → String) : ChainResult :=
  runChainFrom maxIters route resp pathFn 0

/-! ### Persistence (ensure_db / node_persist, main.py lines 94-155 and
525-559)

The `runs` table has `run_id TEXT PRIMARY KEY`, and node_persist writes it
with `INSERT OR REPLACE` (line 537), which deletes any row with the same
primary key before inserting; tables are modelled as row lists.  The
`images`, `candidates` and `messages` tables use plain `INSERT` with
autoincrement ids.  JSON-serialized columns are carried as opaque strings. -/

/-- One row of the `runs` table (schema at lines 98-111). -/
structure RunRow where
  run_id : String
  product_id : Option String
  category : Option String
  route : Option String
  best_path : Option String
  generated : ℕ
  final_scores_json : String
  feedback_json : String
  graph_state_json : String
  created_at : String
deriving Repr, DecidableEq

/-- One row of the `images` table (autoincrement id omitted). -/
structure ImageRow where
  run_id : String
  product_id : Option String
  image_hash : String
  source : String
  approval_json : String
  accepted : ℕ
  created_at : String
deriving Repr, DecidableEq

/-- One row of the `candidates` table (autoincrement id omitted). -/
structure CandidateRow where
  run_id : String
  path : Option String
  mode : Option String
  scores_json : String
  realism_json : String
  accepted : ℕ
  iter : ℕ
  created_at : String
deriving Repr, DecidableEq

/-- One row of the `messages` table (autoincrement id omitted). -/
structure MessageRow where
  run_id : String
  role : String
  content : String
  created_at : String
deriving Repr, DecidableEq

/-- The SQLite database created by `ensure_db`. -/
structure DB where
  runs : List RunRow
  images : List ImageRow
  candidates : List CandidateRow
  messages : List MessageRow
deriving Repr, DecidableEq

/-- Statement `INSERT OR REPLACE` into `runs` with `run_id` as primary key: every
conflicting row is removed, then the new row is inserted. -/
def insertOrReplaceRun (rows : List RunRow) (r : RunRow) : List RunRow :=
  rows.filter (fun x => !(x.run_id == r.run_id)) ++ [r]

/-- What node_persist writes for one completed run: the upserted `runs` row
plus the freshly built `images`, `candidates` and `messages` rows (built
by the loops at lines 541-555, passed here already serialized). -/
structure PersistPayload where
  runRow : RunRow
  imageRows : List ImageRow
  candidateRows : List CandidateRow
  messageRows : List MessageRow
deriving Repr, DecidableEq

/-- Node node_persist (lines 525-559) acting on the database: `runs` is
upserted by primary key, the other tables are plain appends. -/
def node_persist (db : DB) (p : PersistPayload) : DB :=
  { runs := insertOrReplaceRun db.runs p.runRow,
    images := db.images ++ p.imageRows,
    candidates := db.candidates ++ p.candidateRows,
    messages := db.messages ++ p.messageRows }

/-- Number of stored `runs` rows carrying a given run identifier. -/
def runCount (db : DB) (id : String) : ℕ :=
  (db.runs.filter (fun x => x.run_id == id)).length

/-- A concrete empty database, run row and persistence payload used as the
witness input for C9. -/
def dbW : DB := ⟨[], [], [], []⟩

def rowW : RunRow :=
  ⟨"run_1", some "p1", some "sarees", some "A", none, 0, "fs", "fb", "gs", "t0"⟩

def payloadW : PersistPayload := ⟨rowW, [], [], []⟩

/-- A concrete passing re-approval response used as the witness input for
C6. -/
def respW : ℕ → Option ApprovalData := fun _ =>
  some ⟨[⟨"cand", some 0.85, some 0.75, some 0.97, some 0.5, "APPROVE", []⟩],
        ⟨some "APPROVED", none, none, none⟩⟩

/-- Two concrete qualifying verdicts (the second scoring lower than the
first) and the response containing them, exercising the approval tie-break
for C1. -/
def c1recA : PerImage :=
  ⟨"h1", some 0.95, some 0.9, some 1, some 0.9, "APPROVE", []⟩

def c1recB : PerImage :=
  ⟨"h2", some 0.85, some 0.8, some 0.99, some 0.1, "APPROVE", []⟩

def c1data : ApprovalData :=
  ⟨[c1recA, c1recB], ⟨some "APPROVED", some "h1", none, none⟩⟩

/-- A concrete non-acceptable verdict with relevance `0.65` and a response
around it whose global decision is absent, exercising the fallback routing
for C7. -/
def c7rec : PerImage :=
  ⟨"h1", some 0.65, some 0.2, some 1, some 0.5, "NEEDS_EDIT", []⟩

def c7data : ApprovalData := ⟨[c7rec], ⟨none, none, none, none⟩⟩

/-- A concrete approval map over two originals (the second scoring higher),
the witness input for C8. -/
def approvalW : String → Option PerImage := fun h =>
  if h == "a" then
    some ⟨"a", some 0.5, some 0.5, some 0.6, some 0.5, "NEEDS_EDIT", []⟩
  else if h == "b" then
    some ⟨"b", some 0.9, some 0.9, some 1, some 0.9, "APPROVE", []⟩
  else none

/-! ### Helper lemmas -/

theorem foldl_scanStep (l : List PerImage) :
    ∀ (s : ℚ) (b : Option PerImage) (ap : Option String),
      l.foldl scanStep ((s, b.map PerImage.image_hash), ap)
        = (((argFold recScore l (s, b)).1,
            (argFold recScore l (s, b)).2.map PerImage.image_hash),
           l.foldl approveUpd ap) := by
  induction l with
  | nil => intro s b ap; rfl
  | cons x xs ih =>
      intro s b ap
      rw [List.foldl_cons, List.foldl_cons]
      have hunf : argFold recScore (x :: xs) (s, b)
          = argFold recScore xs
              (if recScore x > s then (recScore x, some x) else (s, b)) := rfl
      rw [hunf]
      by_cases hx : recScore x > s
      · have h1 : scanStep ((s, b.map PerImage.image_hash), ap) x
            = ((recScore x, (some x).map PerImage.image_hash),
               approveUpd ap x) := by
          simp [scanStep, approveUpd, hx]
        rw [h1, if_pos hx]
        exact ih (recScore x) (some x) (approveUpd ap x)
      · have h1 : scanStep ((s, b.map PerImage.image_hash), ap) x
            = ((s, b.map PerImage.image_hash), approveUpd ap x) := by
          simp [scanStep, approveUpd, hx]
        rw [h1, if_neg hx]
        exact ih s b (approveUpd ap x)

theorem approvalScan_eq (l : List PerImage) :
    approvalScan l
      = (((argFold recScore l (-1, none)).1,
          (argFold recScore l (-1, none)).2.map PerImage.image_hash),
         l.foldl approveUpd none) := by
  have h := foldl_scanStep l (-1) none none
  simpa [approvalScan] using h

theorem foldl_approveUpd (l : List PerImage) :
    ∀ ap : Option String,
      l.foldl approveUpd ap
        = match l.reverse.find? initialAcceptableRec with
          | some x => some x.image_hash
          | none => ap := by
  induction l with
  | nil => intro ap; rfl
  | cons x xs ih =>
      intro ap
      rw [List.foldl_cons, ih, List.reverse_cons, List.find?_append]
      cases hfind : xs.reverse.find? initialAcceptableRec with
      | some y => simp
      | none =>
          simp only [Option.none_or]
          by_cases hx : initialAcceptableRec x
          · simp [List.find?, hx, approveUpd]
          · simp [List.find?, hx, approveUpd]

/-- The strict-improvement fold either keeps its accumulator (when nothing
beats it) or returns the first input attaining the maximum among those that
beat it. -/
theorem argFold_first_max {α : Type} (f : α → ℚ) :
    ∀ (l : List α) (s : ℚ) (b : Option α),
      ((∀ x ∈ l, f x ≤ s) ∧ argFold f l (s, b) = (s, b)) ∨
      (∃ i, ∃ h : i < l.length,
        argFold f l (s, b)
          = (f (l.get ⟨i, h⟩), some (l.get ⟨i, h⟩)) ∧
        s < f (l.get ⟨i, h⟩) ∧
        (∀ j, ∀ hj : j < l.length,
          f (l.get ⟨j, hj⟩) ≤ f (l.get ⟨i, h⟩)) ∧
        (∀ j, ∀ hj : j < l.length, j < i →
          f (l.get ⟨j, hj⟩) < f (l.get ⟨i, h⟩))) := by
  intro l
  induction l with
  | nil => intro s b; exact Or.inl ⟨by simp, rfl⟩
  | cons x xs ih =>
      intro s b
      have hunf : argFold f (x :: xs) (s, b)
          = argFold f xs (if f x > s then (f x, some x) else (s, b)) := rfl
      by_cases hx : f x > s
      · rw [if_pos hx] at hunf
        rcases ih (f x) (some x) with ⟨hall, heq⟩ |
          ⟨i, hi, heq, hlt, hall, hprev⟩
        · refine Or.inr ⟨0, by simp, ?_, hx, ?_, ?_⟩
          · rw [hunf, heq]; rfl
          · intro j hj
            cases j with
            | zero => exact le_refl _
            | succ k =>
                have hk : k < xs.length := by simpa using hj
                exact hall _ (List.get_mem xs k hk)
          · intro j hj hj0
            omega
        · refine Or.inr ⟨i + 1, by simpa using hi, ?_, ?_, ?_, ?_⟩
          · rw [hunf, heq]; rfl
          · exact lt_trans hx hlt
          · intro j hj
            cases j with
            | zero => exact le_of_lt hlt
            | succ k =>
                have hk : k < xs.length := by simpa using hj
                exact hall k hk
          · intro j hj hji
            cases j with
            | zero => exact hlt
            | succ k =>
                have hk : k < xs.length := by simpa using hj
                exact hprev k hk (by omega)
      · rw [if_neg hx] at hunf
        rcases ih s b with ⟨hall, heq⟩ | ⟨i, hi, heq, hlt, hall, hprev⟩
        · refine Or.inl ⟨?_, by rw [hunf, heq]⟩
          intro y hy
          rcases List.mem_cons.mp hy with hy | hy
          · rw [hy]; exact le_of_not_lt hx
          · exact hall y hy
        · refine Or.inr ⟨i + 1, by simpa using hi, ?_, hlt, ?_, ?_⟩
          · rw [hunf, heq]; rfl
          · intro j hj
            cases j with
            | zero => exact le_of_lt (lt_of_le_of_lt (le_of_not_lt hx) hlt)
            | succ k =>
                have hk : k < xs.length := by simpa using hj
                exact hall k hk
          · intro j hj hji
            cases j with
            | zero => exact lt_of_le_of_lt (le_of_not_lt hx) hlt
            | succ k =>
                have hk : k < xs.length := by simpa using hj
                exact hprev k hk (by omega)

/-- Specialization to the initial accumulator `(-1, None)` of node_approval
and node_select_best: when the list is non-empty and every score beats `-1`,
the fold returns the first input attaining the maximum score. -/
theorem argFold_init {α : Type} (f : α → ℚ) (l : List α)
    (hne : l ≠ []) (hpos : ∀ x ∈ l, -1 < f x) :
    ∃ i, ∃ h : i < l.length,
      argFold f l (-1, none) = (f (l.get ⟨i, h⟩), some (l.get ⟨i, h⟩)) ∧
      (∀ j, ∀ hj : j < l.length,
        f (l.get ⟨j, hj⟩) ≤ f (l.get ⟨i, h⟩)) ∧
      (∀ j, ∀ hj : j < l.length, j < i →
        f (l.get ⟨j, hj⟩) < f (l.get ⟨i, h⟩)) := by
  rcases argFold_first_max f l (-1) none with ⟨hall, _⟩ |
    ⟨i, hi, heq, _, hall, hprev⟩
  · obtain ⟨y, hy⟩ := List.exists_mem_of_ne_nil l hne
    exact absurd (hall y hy) (not_le.mpr (hpos y hy))
  · exact ⟨i, hi, heq, hall, hprev⟩

theorem insertOrReplaceRun_count (rows : List RunRow) (r : RunRow)
    (id : String) (h : r.run_id = id) :
    ((insertOrReplaceRun rows r).filter (fun x => x.run_id == id)).length
      = 1 := by
  subst h
  unfold insertOrReplaceRun
  rw [List.filter_append]
  have h1 : (rows.filter (fun x => !(x.run_id == r.run_id))).filter
      (fun x => x.run_id == r.run_id) = [] := by
    rw [List.filter_eq_nil_iff]
    intro a ha
    have h2 := (List.mem_filter.mp ha).2
    simp at h2 ⊢
    exact h2
  rw [h1]
  simp [List.filter]

/-! ### Claim theorems -/

/-- Claim C4: for all inputs, `score` is the fixed linear combination
`0.70*relevance + 0.20*reality + 0.10*quality`; the weights sum to 1 and no
clamping is applied (the identity holds for every rational input, in or out
of range); `score 1 1 1 = 1` and `score 0 0 0 = 0`. -/
theorem C4_score_fixed_linear_combination :
    (∀ r t q : ℚ, score r t q = 0.70 * r + 0.20 * t + 0.10 * q) ∧
    W_REL + W_REAL + W_QUAL = 1 ∧
    score 1 1 1 = 1 ∧ score 0 0 0 = 0 := by
  refine ⟨fun r t q => rfl, ?_, ?_, ?_⟩ <;>
    norm_num [score, W_REL, W_REAL, W_QUAL]

/-- Claim C5: `isAcceptable` holds iff relevance ≥ 0.80, reality ≥ 0.70 and
integrity ≥ 0.95; quality does not affect acceptance, neither in the initial
approval pass nor in single-candidate re-evaluation. -/
theorem C5_isAcceptable_thresholds :
    (∀ r t i : ℚ,
        isAcceptable r t i = true ↔ (r ≥ 0.80 ∧ t ≥ 0.70 ∧ i ≥ 0.95)) ∧
    (∀ (x : PerImage) (q : Option ℚ),
        initialAcceptableRec { x with quality := q }
          = initialAcceptableRec x) ∧
    (∀ (s : CandScores) (q : ℚ),
        candApproved { s with quality := q } = candApproved s) := by
  refine ⟨fun r t i => ?_, fun x q => rfl, fun s q => rfl⟩
  simp [isAcceptable, RELEVANCE_PASS, REALITY_PASS, INTEGRITY_PASS,
    and_assoc]

/-- Claim C10: in the initial approval pass a missing integrity field is
read as `1` (so the integrity gate passes and acceptance reduces to the
relevance and reality gates), while missing relevance or reality is read as
`0` (so the record is rejected); in single-candidate re-evaluation every
missing score is read as `0`, so a candidate verdict without an integrity
field is never accepted there. -/
theorem C10_missing_field_defaults (x : PerImage) (g : GlobalRec)
    (rest : List PerImage) (hi : x.integrity = none) :
    (initialAcceptableRec x = true ↔
        (x.relevance.getD 0 ≥ RELEVANCE_PASS ∧
         x.reality.getD 0 ≥ REALITY_PASS)) ∧
    (∀ y : PerImage, y.relevance = none → initialAcceptableRec y = false) ∧
    (∀ y : PerImage, y.reality = none → initialAcceptableRec y = false) ∧
    extractScores (some ⟨x :: rest, g⟩) =
      ⟨x.relevance.getD 0, x.reality.getD 0, 0, x.quality.getD 0⟩ ∧
    candApproved (extractScores (some ⟨x :: rest, g⟩)) = false := by
  refine ⟨?_, ?_, ?_, ?_, ?_⟩
  · simp [initialAcceptableRec, isAcceptable, hi]
    norm_num [INTEGRITY_PASS]
  · intro y hy
    simp [initialAcceptableRec, isAcceptable, hy]
    norm_num [RELEVANCE_PASS]
  · intro y hy
    simp [initialAcceptableRec, isAcceptable, hy]
    norm_num [REALITY_PASS]
  · simp [extractScores, hi]
  · simp [extractScores, hi, candApproved, isAcceptable]
    norm_num [INTEGRITY_PASS]

/-- Witness for C10 at a concrete record whose integrity field is absent. -/
theorem C10_missing_field_defaults_witness :
    (⟨"w", some 0.9, some 0.8, none, some 0.4, "APPROVE", []⟩ : PerImage).integrity
        = none ∧
    (initialAcceptableRec ⟨"w", some 0.9, some 0.8, none, some 0.4, "APPROVE", []⟩
        = true ↔
      ((0.9 : ℚ) ≥ RELEVANCE_PASS ∧ (0.8 : ℚ) ≥ REALITY_PASS)) ∧
    candApproved (extractScores (some ⟨[⟨"w", some 0.9, some 0.8, none,
        some 0.4, "APPROVE", []⟩], ⟨none, none, none, none⟩⟩)) = false := by
  refine ⟨rfl, ?_, ?_⟩
  · exact (C10_missing_field_defaults
      ⟨"w", some 0.9, some 0.8, none, some 0.4, "APPROVE", []⟩
      ⟨none, none, none, none⟩ [] rfl).1
  · exact (C10_missing_field_defaults
      ⟨"w", some 0.9, some 0.8, none, some 0.4, "APPROVE", []⟩
      ⟨none, none, none, none⟩ [] rfl).2.2.2.2

/-- Claim C9: persisting a completed run twice with the same run identifier
leaves exactly one stored `runs` row for that identifier (idempotent upsert
by `run_id`), whatever the database contained before. -/
theorem C9_idempotent_upsert (db : DB) (p q : PersistPayload) (id : String)
    (_hp : p.runRow.run_id = id) (hq : q.runRow.run_id = id) :
    runCount (node_persist (node_persist db p) q) id = 1 := by
  unfold runCount node_persist
  exact insertOrReplaceRun_count _ _ _ hq

/-- Witness for C9: persisting the same concrete run twice leaves one row. -/
theorem C9_idempotent_upsert_witness :
    payloadW.runRow.run_id = "run_1" ∧
    runCount (node_persist (node_persist dbW payloadW) payloadW) "run_1"
      = 1 :=
  ⟨rfl, C9_idempotent_upsert dbW payloadW payloadW "run_1" rfl rfl⟩

/-- Claim C2, counterexample to "all-zero scores": on input `["h1"]` with an
unparsable response, the single synthesized verdict carries integrity `1`
and quality `0.5`, not `0`. -/
theorem C2_fail_open_counterexample :
    (node_approval ["h1"] none).approvalData.per_image.map PerImage.integrity
        = [some 1] ∧
    (node_approval ["h1"] none).approvalData.per_image.map PerImage.quality
        = [some 0.5] ∧
    some (1 : ℚ) ≠ some (0 : ℚ) ∧ some (0.5 : ℚ) ≠ some (0 : ℚ) := by
  refine ⟨rfl, rfl, ?_, ?_⟩
  · simp
  · simp
    norm_num

/-- Claim C2 as amended: when the understanding response of the initial
approval pass cannot be parsed, `node_approval` does not fail: it
synthesizes, for every input image, a verdict with relevance `0`,
reality `0`, integrity `1`, quality `0.5`, verdict `NEEDS_COMPLETE_CHANGE`
and reason `llm_parse_error`, and the resulting route is
`NEEDS_COMPLETE_CHANGE`. -/
theorem C2_fail_open_route (hashes : List String) :
    (node_approval hashes none).approvalData.per_image =
      hashes.map (fun h =>
        { image_hash := h, relevance := some 0, reality := some 0,
          integrity := some 1, quality := some 0.5,
          verdict := "NEEDS_COMPLETE_CHANGE",
          reasons := ["llm_parse_error"] }) ∧
    (node_approval hashes none).decision.route = "NEEDS_COMPLETE_CHANGE" ∧
    (node_approval hashes none).iter_count = 0 := by
  refine ⟨rfl, ?_, rfl⟩
  have hnone : (approvalScan (hashes.map failOpenRecord)).2 = none := by
    unfold approvalScan
    rw [List.foldl_map]
    have h0 : ∀ acc : (ℚ × Option String) × Option String, acc.2 = none →
        (hashes.foldl (fun acc h => scanStep acc (failOpenRecord h)) acc).2
          = none := by
      induction hashes with
      | nil => intro acc hacc; exact hacc
      | cons a as ih =>
          intro acc hacc
          rw [List.foldl_cons]
          apply ih
          have hrej : initialAcceptableRec (failOpenRecord a) = false := by
            simp [initialAcceptableRec, failOpenRecord, isAcceptable]
            norm_num [RELEVANCE_PASS]
          simp [scanStep, hrej, hacc]
    exact h0 ((-1, none), none) rfl
  show (computeDecision (failOpenData hashes)).route = "NEEDS_COMPLETE_CHANGE"
  unfold computeDecision failOpenData
  simp only [hnone]
  simp [pyTruthy, pyOr]

/-- Claim C6: a repair chain whose first produced candidate is acceptable
terminates after exactly one PLAN, PRODUCE, RE_EVALUATE cycle: one production
attempt, retry counter `0`, `best` set with `generated = true`, the first
candidate path, the rounded policy score and no warning, and terminal route
`B` for the edit chain and `C` for the generate chain. -/
theorem C6_first_candidate_accepted (maxIters : ℕ) (route : String)
    (resp : ℕ → Option ApprovalData) (pathFn : ℕ → String)
    (happr : candApproved (extractScores (resp 0)) = true) :
    (runChain maxIters route resp pathFn).attempts = 1 ∧
    (runChain maxIters route resp pathFn).iter_count = 0 ∧
    (runChain maxIters route resp pathFn).best =
      { generated := true, path := some (pathFn 0), source_hash := none,
        final_score := round3 (score (extractScores (resp 0)).relevance
          (extractScores (resp 0)).reality (extractScores (resp 0)).quality),
        warning := none } ∧
    (route = "NEEDS_EDIT" →
      (runChain maxIters route resp pathFn).route = "B") ∧
    (route = "NEEDS_COMPLETE_CHANGE" →
      (runChain maxIters route resp pathFn).route = "C") := by
  have hstep : runChain maxIters route resp pathFn =
      { attempts := 1, iter_count := 0,
        best := { generated := true, path := some (pathFn 0),
                  source_hash := none,
                  final_score := round3 (score (extractScores (resp 0)).relevance
                    (extractScores (resp 0)).reality
                    (extractScores (resp 0)).quality),
                  warning := none },
        route := terminalRoute route } := by
    unfold runChain
    rw [runChainFrom]
    simp [happr]
  rw [hstep]
  refine ⟨rfl, rfl, rfl, ?_, ?_⟩
  · intro h
    simp [terminalRoute, h]
  · intro h
    simp [terminalRoute, h]

/-- Witness for C6 on a concrete always-passing response in the edit
chain. -/
theorem C6_first_candidate_accepted_witness :
    candApproved (extractScores (respW 0)) = true ∧
    (runChain MAX_ITERS "NEEDS_EDIT" respW (fun _ => "edit0")).attempts = 1 ∧
    (runChain MAX_ITERS "NEEDS_EDIT" respW (fun _ => "edit0")).iter_count
      = 0 ∧
    (runChain MAX_ITERS "NEEDS_EDIT" respW (fun _ => "edit0")).route
      = "B" := by
  have happr : candApproved (extractScores (respW 0)) = true := by
    norm_num [respW, candApproved, extractScores, isAcceptable,
      RELEVANCE_PASS, REALITY_PASS, INTEGRITY_PASS]
  have h := C6_first_candidate_accepted MAX_ITERS "NEEDS_EDIT" respW
    (fun _ => "edit0") happr
  exact ⟨happr, h.1, h.2.1, h.2.2.2.1 rfl⟩

/-- The repair loop entered at iteration `it < maxIters` with no candidate
ever accepted: it performs `maxIters - it` further production attempts and
ends at iteration `maxIters - 1` with the warning set. -/
theorem runChainFrom_exhaust (maxIters : ℕ) (route : String)
    (resp : ℕ → Option ApprovalData) (pathFn : ℕ → String)
    (hfail : ∀ j, candApproved (extractScores (resp j)) = false) :
    ∀ n it, maxIters - it = n → it < maxIters →
      (runChainFrom maxIters route resp pathFn it).attempts
        = maxIters - it ∧
      (runChainFrom maxIters route resp pathFn it).iter_count
        = maxIters - 1 ∧
      (runChainFrom maxIters route resp pathFn it).best =
        { generated := true, path := some (pathFn (maxIters - 1)),
          source_hash := none,
          final_score := round3
            (score (extractScores (resp (maxIters - 1))).relevance
              (extractScores (resp (maxIters - 1))).reality
              (extractScores (resp (maxIters - 1))).quality),
          warning := some "max_iters_reached" } ∧
      (runChainFrom maxIters route resp pathFn it).route
        = terminalRoute route := by
  intro n
  induction n with
  | zero => intro it h0 hlt; omega
  | succ k ih =>
      intro it hk hlt
      by_cases hcase : it + 1 < maxIters
      · have hrec := ih (it + 1) (by omega) hcase
        have hstep : runChainFrom maxIters route resp pathFn it =
            { runChainFrom maxIters route resp pathFn (it + 1) with
              attempts :=
                (runChainFrom maxIters route resp pathFn (it + 1)).attempts
                  + 1 } := by
          rw [runChainFrom]
          simp [hfail it, hcase]
        rw [hstep]
        refine ⟨?_, hrec.2.1, hrec.2.2.1, hrec.2.2.2⟩
        show (runChainFrom maxIters route resp pathFn (it + 1)).attempts + 1
          = maxIters - it
        rw [hrec.1]
        omega
      · have hstep : runChainFrom maxIters route resp pathFn it =
            { attempts := 1, iter_count := it,
              best := { generated := true, path := some (pathFn it),
                        source_hash := none,
                        final_score := round3
                          (score (extractScores (resp it)).relevance
                            (extractScores (resp it)).reality
                            (extractScores (resp it)).quality),
                        warning := some "max_iters_reached" },
              route := terminalRoute route } := by
          rw [runChainFrom]
          simp [hfail it, hcase]
        rw [hstep]
        have hit : it = maxIters - 1 := by omega
        refine ⟨?_, ?_, ?_, rfl⟩
        · show 1 = maxIters - it
          omega
        · show it = maxIters - 1
          omega
        · rw [hit]

/-- Claim C3: a repair chain (edit or generate) in which no candidate is
ever acceptable performs exactly `maxIters` production attempts (never more,
never zero; the configured default `MAX_ITERS` is 2), terminates with `best`
taken from the latest candidate with its warning set, assigns terminal route
`B` for the edit chain and `C` otherwise, and its final retry counter
`maxIters - 1` stays below the configured maximum. -/
theorem C3_retry_exhaustion (maxIters : ℕ) (route : String)
    (resp : ℕ → Option ApprovalData) (pathFn : ℕ → String)
    (hpos : 1 ≤ maxIters)
    (hfail : ∀ j, candApproved (extractScores (resp j)) = false) :
    MAX_ITERS = 2 ∧
    (runChain maxIters route resp pathFn).attempts = maxIters ∧
    1 ≤ (runChain maxIters route resp pathFn).attempts ∧
    (runChain maxIters route resp pathFn).iter_count = maxIters - 1 ∧
    (runChain maxIters route resp pathFn).iter_count < maxIters ∧
    (runChain maxIters route resp pathFn).best.path
      = some (pathFn (maxIters - 1)) ∧
    (runChain maxIters route resp pathFn).best.warning
      = some "max_iters_reached" ∧
    (route = "NEEDS_EDIT" →
      (runChain maxIters route resp pathFn).route = "B") ∧
    (route ≠ "NEEDS_EDIT" →
      (runChain maxIters route resp pathFn).route = "C") := by
  have h := runChainFrom_exhaust maxIters route resp pathFn hfail maxIters 0
    (by omega) (by omega)
  have hchain : runChain maxIters route resp pathFn
      = runChainFrom maxIters route resp pathFn 0 := rfl
  rw [hchain]
  refine ⟨rfl, ?_, ?_, h.2.1, ?_, ?_, ?_, ?_, ?_⟩
  · rw [h.1]; omega
  · rw [h.1]; omega
  · rw [h.2.1]; omega
  · rw [h.2.2.1]
  · rw [h.2.2.1]
  · intro hr
    rw [h.2.2.2]
    simp [terminalRoute, hr]
  · intro hr
    rw [h.2.2.2]
    simp [terminalRoute, hr]

/-- Witness for C3: the edit chain with the default budget of 2 and a
never-parsable re-approval response performs exactly 2 attempts. -/
theorem C3_retry_exhaustion_witness :
    1 ≤ MAX_ITERS ∧
    candApproved (extractScores none) = false ∧
    (runChain MAX_ITERS "NEEDS_EDIT" (fun _ => none) (fun _ => "e")).attempts
      = MAX_ITERS ∧
    (runChain MAX_ITERS "NEEDS_EDIT" (fun _ => none)
      (fun _ => "e")).best.warning = some "max_iters_reached" ∧
    (runChain MAX_ITERS "NEEDS_EDIT" (fun _ => none) (fun _ => "e")).route
      = "B" := by
  have hfail : ∀ j : ℕ, candApproved (extractScores ((fun _ => none) j))
      = false := by
    intro j
    norm_num [candApproved, extractScores, isAcceptable, RELEVANCE_PASS]
  have h := C3_retry_exhaustion MAX_ITERS "NEEDS_EDIT" (fun _ => none)
    (fun _ => "e") (by norm_num [MAX_ITERS]) hfail
  exact ⟨by norm_num [MAX_ITERS], hfail 0, h.2.1, h.2.2.2.2.2.2.1,
    h.2.2.2.2.2.2.2.1 rfl⟩

/-- Claim C8: in the direct-selection branch the best selector returns the
original image with the maximum recomputed score, ties broken by the first
maximum in input order, with `generated = false`, the winning fingerprint,
the (rounded) winning score, and terminal route letter `A`. -/
theorem C8_select_best_first_max (inputs : List String)
    (approval : String → Option PerImage)
    (hne : inputs ≠ [])
    (hpos : ∀ h ∈ inputs, -1 < imageScore approval h) :
    ∃ i, ∃ hlt : i < inputs.length,
      node_select_best inputs approval
        = some ({ generated := false, path := none,
                  source_hash := some (inputs.get ⟨i, hlt⟩),
                  final_score :=
                    round3 (imageScore approval (inputs.get ⟨i, hlt⟩)),
                  warning := none }, "A") ∧
      (∀ j, ∀ hj : j < inputs.length,
        imageScore approval (inputs.get ⟨j, hj⟩)
          ≤ imageScore approval (inputs.get ⟨i, hlt⟩)) ∧
      (∀ j, ∀ hj : j < inputs.length, j < i →
        imageScore approval (inputs.get ⟨j, hj⟩)
          < imageScore approval (inputs.get ⟨i, hlt⟩)) := by
  obtain ⟨i, hlt, heq, hall, hprev⟩ :=
    argFold_init (imageScore approval) inputs hne hpos
  refine ⟨i, hlt, ?_, hall, hprev⟩
  unfold node_select_best
  rw [heq]

/-- Witness for C8 on two concrete originals scoring 0.5 and 0.9. -/
theorem C8_select_best_first_max_witness :
    ∃ i, ∃ hlt : i < (["a", "b"] : List String).length,
      node_select_best ["a", "b"] approvalW
        = some ({ generated := false, path := none,
                  source_hash :=
                    some ((["a", "b"] : List String).get ⟨i, hlt⟩),
                  final_score := round3 (imageScore approvalW
                    ((["a", "b"] : List String).get ⟨i, hlt⟩)),
                  warning := none }, "A") ∧
      (∀ j, ∀ hj : j < (["a", "b"] : List String).length,
        imageScore approvalW ((["a", "b"] : List String).get ⟨j, hj⟩)
          ≤ imageScore approvalW ((["a", "b"] : List String).get ⟨i, hlt⟩)) ∧
      (∀ j, ∀ hj : j < (["a", "b"] : List String).length, j < i →
        imageScore approvalW ((["a", "b"] : List String).get ⟨j, hj⟩)
          < imageScore approvalW
              ((["a", "b"] : List String).get ⟨i, hlt⟩)) := by
  apply C8_select_best_first_max ["a", "b"] approvalW (by simp)
  intro h hh
  rcases List.mem_cons.mp hh with h1 | h1
  · subst h1
    have ha : imageScore approvalW "a" = score 0.5 0.5 0.5 := rfl
    rw [ha]
    norm_num [score, W_REL, W_REAL, W_QUAL]
  · have h2 : h = "b" := by simpa using h1
    subst h2
    have hb : imageScore approvalW "b" = score 0.9 0.9 0.9 := rfl
    rw [hb]
    norm_num [score, W_REL, W_REAL, W_QUAL]

/-- Claim C7, counterexample: with no acceptable image, one image at
relevance `0.65` and an absent global decision, the claim requires the
relevance heuristic to fire (route NEEDS_EDIT), but the code defaults the
absent decision to NEEDS_COMPLETE_CHANGE before the membership test and
never consults the heuristic. -/
theorem C7_fallback_counterexample :
    initialAcceptableRec c7rec = false ∧
    (0.65 : ℚ) ≥ 0.6 ∧
    c7data.globalRec.decision = none ∧
    (computeDecision c7data).route = "NEEDS_COMPLETE_CHANGE" ∧
    ("NEEDS_COMPLETE_CHANGE" : String) ≠ "NEEDS_EDIT" := by
  refine ⟨?_, by norm_num, rfl, ?_, by simp⟩
  · norm_num [initialAcceptableRec, isAcceptable, c7rec, RELEVANCE_PASS,
      REALITY_PASS, INTEGRITY_PASS]
  · norm_num [computeDecision, approvalScan, scanStep, c7data, c7rec,
      recScore, score, initialAcceptableRec, isAcceptable, pyTruthy, pyOr,
      W_REL, W_REAL, W_QUAL, RELEVANCE_PASS, REALITY_PASS, INTEGRITY_PASS]

/-- Claim C7 as amended: when no image passes the acceptance gate, the route
is the global recommendation when that is present and one of NEEDS_EDIT /
NEEDS_COMPLETE_CHANGE; an absent (or empty) recommendation defaults to
NEEDS_COMPLETE_CHANGE without consulting the heuristic; any other present
recommendation falls back to the relevance-0.6 heuristic; and the chosen
fingerprint is that of the first highest-scoring image. -/
theorem C7_no_acceptable_routing (data : ApprovalData)
    (hrej : ∀ x ∈ data.per_image, initialAcceptableRec x = false)
    (hne : data.per_image ≠ [])
    (hpos : ∀ x ∈ data.per_image, -1 < recScore x) :
    (data.globalRec.decision = some "NEEDS_EDIT" →
      (computeDecision data).route = "NEEDS_EDIT") ∧
    (data.globalRec.decision = some "NEEDS_COMPLETE_CHANGE" →
      (computeDecision data).route = "NEEDS_COMPLETE_CHANGE") ∧
    (data.globalRec.decision = none →
      (computeDecision data).route = "NEEDS_COMPLETE_CHANGE") ∧
    (∀ s, data.globalRec.decision = some s → s ≠ "" → s ≠ "NEEDS_EDIT" →
      s ≠ "NEEDS_COMPLETE_CHANGE" →
      ((data.per_image.any (fun x => decide (x.relevance.getD 0 ≥ 0.6))
          = true →
        (computeDecision data).route = "NEEDS_EDIT") ∧
       (data.per_image.any (fun x => decide (x.relevance.getD 0 ≥ 0.6))
          = false →
        (computeDecision data).route = "NEEDS_COMPLETE_CHANGE"))) ∧
    (∃ i, ∃ hlt : i < data.per_image.length,
      (computeDecision data).chosen
        = some ((data.per_image.get ⟨i, hlt⟩).image_hash) ∧
      (∀ j, ∀ hj : j < data.per_image.length,
        recScore (data.per_image.get ⟨j, hj⟩)
          ≤ recScore (data.per_image.get ⟨i, hlt⟩)) ∧
      (∀ j, ∀ hj : j < data.per_image.length, j < i →
        recScore (data.per_image.get ⟨j, hj⟩)
          < recScore (data.per_image.get ⟨i, hlt⟩))) := by
  have hfind : data.per_image.reverse.find? initialAcceptableRec = none := by
    rw [List.find?_eq_none]
    intro x hx
    simp [hrej x (List.mem_reverse.mp hx)]
  have hdec : computeDecision data =
      { route :=
          (if pyOr data.globalRec.decision "NEEDS_COMPLETE_CHANGE"
                == "NEEDS_EDIT" ||
              pyOr data.globalRec.decision "NEEDS_COMPLETE_CHANGE"
                == "NEEDS_COMPLETE_CHANGE" then
            pyOr data.globalRec.decision "NEEDS_COMPLETE_CHANGE"
          else if data.per_image.any
              (fun x => decide (x.relevance.getD 0 ≥ 0.6)) then
            "NEEDS_EDIT"
          else "NEEDS_COMPLETE_CHANGE"),
        chosen := (argFold recScore data.per_image (-1, none)).2.map
          PerImage.image_hash } := by
    unfold computeDecision
    rw [approvalScan_eq]
    simp [foldl_approveUpd, hfind, pyTruthy]
  refine ⟨?_, ?_, ?_, ?_, ?_⟩
  · intro h
    rw [hdec]
    simp [pyOr, h]
  · intro h
    rw [hdec]
    simp [pyOr, h]
  · intro h
    rw [hdec]
    simp [pyOr, h]
  · intro s hs hs0 hs1 hs2
    constructor
    · intro hany
      rw [hdec]
      simp [pyOr, hs, hs0, hs1, hs2, hany]
    · intro hany
      rw [hdec]
      simp [pyOr, hs, hs0, hs1, hs2, hany]
  · obtain ⟨i, hlt, heq, hall, hprev⟩ :=
      argFold_init recScore data.per_image hne hpos
    refine ⟨i, hlt, ?_, hall, hprev⟩
    rw [hdec]
    show (argFold recScore data.per_image (-1, none)).2.map
      PerImage.image_hash = _
    rw [heq]
    rfl

/-- Witness for C7 on the concrete one-image response with an absent global
decision. -/
theorem C7_no_acceptable_routing_witness :
    (∀ x ∈ c7data.per_image, initialAcceptableRec x = false) ∧
    (c7data.globalRec.decision = none →
      (computeDecision c7data).route = "NEEDS_COMPLETE_CHANGE") ∧
    (∃ i, ∃ hlt : i < c7data.per_image.length,
      (computeDecision c7data).chosen
        = some ((c7data.per_image.get ⟨i, hlt⟩).image_hash) ∧
      (∀ j, ∀ hj : j < c7data.per_image.length,
        recScore (c7data.per_image.get ⟨j, hj⟩)
          ≤ recScore (c7data.per_image.get ⟨i, hlt⟩)) ∧
      (∀ j, ∀ hj : j < c7data.per_image.length, j < i →
        recScore (c7data.per_image.get ⟨j, hj⟩)
          < recScore (c7data.per_image.get ⟨i, hlt⟩))) := by
  have hrej : ∀ x ∈ c7data.per_image, initialAcceptableRec x = false := by
    intro x hx
    have hx1 : x = c7rec := by simpa [c7data] using hx
    subst hx1
    norm_num [initialAcceptableRec, isAcceptable, c7rec, RELEVANCE_PASS,
      REALITY_PASS, INTEGRITY_PASS]
  have hpos : ∀ x ∈ c7data.per_image, -1 < recScore x := by
    intro x hx
    have hx1 : x = c7rec := by simpa [c7data] using hx
    subst hx1
    norm_num [recScore, score, c7rec, W_REL, W_REAL, W_QUAL]
  have h := C7_no_acceptable_routing c7data hrej (by simp [c7data]) hpos
  exact ⟨hrej, fun _ => h.2.2.1 rfl, h.2.2.2.2⟩

/-- Claim C1, counterexample to the first-match rule: two qualifying images
`h1` then `h2` (with `h2` scoring lower); line 350 overwrites
`approved_hash` on every qualifying record, so the chosen fingerprint is
`h2`, the later and lower-scoring one, not the earliest `h1`. -/
theorem C1_first_match_counterexample :
    initialAcceptableRec c1recA = true ∧
    initialAcceptableRec c1recB = true ∧
    recScore c1recB < recScore c1recA ∧
    (computeDecision c1data).route = "APPROVED" ∧
    (computeDecision c1data).chosen = some "h2" ∧
    ("h2" : String) ≠ "h1" := by
  refine ⟨?_, ?_, ?_, ?_, ?_, by simp⟩
  · norm_num [initialAcceptableRec, isAcceptable, c1recA, RELEVANCE_PASS,
      REALITY_PASS, INTEGRITY_PASS]
  · norm_num [initialAcceptableRec, isAcceptable, c1recB, RELEVANCE_PASS,
      REALITY_PASS, INTEGRITY_PASS]
  · norm_num [recScore, score, c1recA, c1recB, W_REL, W_REAL, W_QUAL]
  · norm_num [computeDecision, approvalScan, scanStep, c1data, c1recA,
      c1recB, recScore, score, initialAcceptableRec, isAcceptable, pyTruthy,
      W_REL, W_REAL, W_QUAL, RELEVANCE_PASS, REALITY_PASS, INTEGRITY_PASS]
    simp
  · norm_num [computeDecision, approvalScan, scanStep, c1data, c1recA,
      c1recB, recScore, score, initialAcceptableRec, isAcceptable, pyTruthy,
      W_REL, W_REAL, W_QUAL, RELEVANCE_PASS, REALITY_PASS, INTEGRITY_PASS]
    simp

/-- Claim C1 as amended: during the initial approval pass, if at least one
image passes the acceptance gate (and hashes are non-empty strings), the
route is APPROVED and the chosen fingerprint is that of the
latest-encountered qualifying image in input order (last-match), regardless
of scores. -/
theorem C1_approved_last_match (data : ApprovalData)
    (hq : ∃ x ∈ data.per_image, initialAcceptableRec x = true)
    (hnz : ∀ x ∈ data.per_image, x.image_hash ≠ "") :
    (computeDecision data).route = "APPROVED" ∧
    (computeDecision data).chosen
      = (data.per_image.reverse.find? initialAcceptableRec).map
          PerImage.image_hash := by
  obtain ⟨x0, hx0, hx0t⟩ := hq
  have hsome : (data.per_image.reverse.find? initialAcceptableRec).isSome := by
    rw [List.find?_isSome]
    exact ⟨x0, List.mem_reverse.mpr hx0, hx0t⟩
  obtain ⟨y, hy⟩ := Option.isSome_iff_exists.mp hsome
  have hymem : y ∈ data.per_image :=
    List.mem_reverse.mp (List.mem_of_find?_eq_some hy)
  have hyhash : y.image_hash ≠ "" := hnz y hymem
  have hdec : computeDecision data =
      { route := "APPROVED", chosen := some y.image_hash } := by
    unfold computeDecision
    rw [approvalScan_eq]
    simp [foldl_approveUpd, hy, pyTruthy, hyhash]
  rw [hdec, hy]
  exact ⟨rfl, rfl⟩

/-- Witness for C1 (amended) on the concrete two-qualifying-image data. -/
theorem C1_approved_last_match_witness :
    (∃ x ∈ c1data.per_image, initialAcceptableRec x = true) ∧
    (computeDecision c1data).route = "APPROVED" ∧
    (computeDecision c1data).chosen
      = (c1data.per_image.reverse.find? initialAcceptableRec).map
          PerImage.image_hash := by
  have hq : ∃ x ∈ c1data.per_image, initialAcceptableRec x = true := by
    refine ⟨c1recA, by simp [c1data], ?_⟩
    norm_num [initialAcceptableRec, isAcceptable, c1recA, RELEVANCE_PASS,
      REALITY_PASS, INTEGRITY_PASS]
  have hnz : ∀ x ∈ c1data.per_image, x.image_hash ≠ "" := by
    intro x hx
    rcases List.mem_cons.mp hx with h1 | h1
    · subst h1; simp [c1recA]
    · have h2 : x = c1recB := by simpa [c1data] using h1
      subst h2; simp [c1recB]
  have h := C1_approved_last_match c1data hq hnz
  exact ⟨hq, h.1, h.2⟩

end Meesho
